import Mathlib

/-
Verification development for `astrosource/comparison.py`.

The Python module works on in-memory numpy tables (frames of photometry
rows) and on catalog result tables.  We embed the relevant functions
shallowly:

* tables are `List (List ℚ)` / `List (List ℝ)` (frames × rows × columns),
  row schema `(ra, dec, inst_mag, mag_err, flux_counts, flux_err)`, so
  column 4 is the flux count;
* numpy float arithmetic is idealised as exact arithmetic (`ℚ` where the
  code only compares and adds, `ℝ` where `log10`/`std` are involved); a
  separate NaN-aware model (`Option ℝ`, `none` = non-finite) is used for
  the NaN claims;
* `sys.exit` / raised exceptions / Python `NameError`s become `Except`
  errors; files written become data in the result;
* the astropy coordinate matcher (`match_to_catalog_sky`) is an external
  collaborator and is passed in as a function parameter;
* numpy boolean indexing with a mask whose length differs from the axis
  raises `IndexError`; `applyMask` models this with `Option`.
-/

namespace Astrosource

deriving instance DecidableEq for Except

/-- `row.getD i 0`: numpy row indexing `row[i]` (rational model).  All concrete
rows used below have enough columns, so the default is never exercised there. -/
def colQ (i : ℕ) (row : List ℚ) : ℚ := row.getD i 0

/-- Python runtime exceptions relevant here. -/
inductive PyExc where
  | keyError (key : String)
  | indexError
deriving DecidableEq

/-! ### `final_candidate_catalogue` (comparison.py lines 123-170), selection loop

`sortorder = sortStars[:,2].argsort()` sorts candidate indices by the
variability score in column 2.  numpy's argsort is modelled as an index
sort by key (tie order is unspecified in both). -/

/-- `sortStars[:,2].argsort()`: the candidate indices sorted ascending by the
score at column 2 of `sortStars` (keys are passed already extracted). -/
def argsortKeys (keys : List ℚ) : List ℕ :=
  List.insertionSort (fun i j => keys.getD i 0 ≤ keys.getD j 0) (List.range keys.length)

/-- State threaded through the selection loop of `final_candidate_catalogue`:
`compFile` (accepted comparison stars), `tempCountCounter` and
`finalCountCounter`. -/
structure SelState where
  compFile : List (List ℚ)
  tempCount : ℚ
  finalCount : ℚ
deriving DecidableEq

/-- `referenceFrame[idx][4]` where `idx` is the nearest reference-frame row to
the candidate's `(ra, dec)`: the candidate's reference-frame flux contribution.
`matchIdx` stands for astropy's `match_to_catalog_sky` against the fixed
reference-frame coordinate list. -/
def selContrib (referenceFrame : List (List ℚ)) (matchIdx : ℚ × ℚ → ℕ)
    (row : List ℚ) : ℚ :=
  colQ 4 (referenceFrame.getD (matchIdx (colQ 0 row, colQ 1 row)) [])

/-- One pass of the `for j in sortorder:` loop (lines 146-158): the acceptance
test nests `tempCountCounter < thresholdCounts` around
`len(sortorder) == 1 or sortStars[j][2] < variabilityMax`; on acceptance the
row `(ra, dec, score)` is appended and `finalCountCounter` is bumped; the
matched flux is added to `tempCountCounter` on every pass, accepted or not. -/
def selectStep (referenceFrame sortStars : List (List ℚ)) (matchIdx : ℚ × ℚ → ℕ)
    (thresholdCounts variabilityMax : ℚ) (n : ℕ) (st : SelState) (j : ℕ) : SelState :=
  let row := sortStars.getD j []
  let contrib := selContrib referenceFrame matchIdx row
  if st.tempCount < thresholdCounts then
    if n = 1 ∨ colQ 2 row < variabilityMax then
      ⟨st.compFile ++ [[colQ 0 row, colQ 1 row, colQ 2 row]],
       st.tempCount + contrib, st.finalCount + contrib⟩
    else ⟨st.compFile, st.tempCount + contrib, st.finalCount⟩
  else ⟨st.compFile, st.tempCount + contrib, st.finalCount⟩

/-- The selection part of `final_candidate_catalogue`: walk `sortorder`
starting from empty `compFile` and zero counters.

Lines 137-138 special-case a `sortStars` of numpy shape `(1,13)`
(`sortStars.size == 13 and sortStars.shape[0] == 1`, i.e. a single 13-column
row) by wrapping it in a Python list.  After the wrap, the loop's first pass
evaluates `sortStars[j][1]` at line 147 — with `sortStars[j]` now the whole
`(1,13)` array, `[1]` indexes row 1 of a 1-row array — raising `IndexError`
before any match, acceptance test, or running-sum update.  That branch is
therefore the error case below; on every other shape the wrap does not fire
and the selection loop runs. -/
def final_candidate_catalogue (referenceFrame sortStars : List (List ℚ))
    (matchIdx : ℚ × ℚ → ℕ) (thresholdCounts variabilityMax : ℚ) :
    Except PyExc SelState :=
  let sortorder := argsortKeys (sortStars.map (colQ 2))
  if sortStars.length = 1 ∧ (sortStars.headD []).length = 13 then
    .error .indexError
  else
    .ok (sortorder.foldl
      (selectStep referenceFrame sortStars matchIdx thresholdCounts variabilityMax
        sortorder.length)
      ⟨[], 0, 0⟩)

/-- Declarative reading of the selection loop: processing the index list with a
running pre-addition flux sum `c`, a candidate is accepted exactly when
`c < thresholdCounts` and (`n = 1` or its score is below `variabilityMax`),
and its contribution is added to `c` in either case. -/
def acceptedFrom (referenceFrame sortStars : List (List ℚ)) (matchIdx : ℚ × ℚ → ℕ)
    (thresholdCounts variabilityMax : ℚ) (n : ℕ) : ℚ → List ℕ → List (List ℚ)
  | _, [] => []
  | c, j :: js =>
    let row := sortStars.getD j []
    (if c < thresholdCounts ∧ (n = 1 ∨ colQ 2 row < variabilityMax)
     then [[colQ 0 row, colQ 1 row, colQ 2 row]] else [])
      ++ acceptedFrom referenceFrame sortStars matchIdx thresholdCounts variabilityMax n
          (c + selContrib referenceFrame matchIdx row) js

/-! ### `catalogue_call` (lines 273-350)

Target exclusion (lines 319-323) and the crowding-rejection loop
(lines 327-338).  Catalog entries are reduced to their `(ra, dec)` pair;
the angular-separation matcher is an external collaborator and enters as
the `dist` parameter of the crowding loop. -/

/-- Lines 320-321: a 1-D `targets` array of 4 numbers is wrapped into a
single-row list before iterating (a no-op in the list model). -/
structure CatEntry where
  ra : ℚ
  dec : ℚ
deriving DecidableEq

/-- Lines 322-323, the target-exclusion filter.  The Python line is
`resp = resp[where(abs(ra-tg[0]) > 0.0014) and where(abs(dec-tg[1]) > 0.0014)]`.
`numpy.where(cond)` returns a non-empty tuple, which is always truthy, so the
Python `and` evaluates to its second operand: only the declination condition
filters, the right-ascension condition is discarded.  Translated faithfully. -/
def remove_near_targets (resp : List CatEntry) (targets : List (ℚ × ℚ)) : List CatEntry :=
  targets.foldl (fun acc tg => acc.filter (fun e => decide (0.0014 < |e.dec - tg.2|))) resp

/-- Minimum of a list of rationals, `none` on the empty list. -/
def listMinOpt : List ℚ → Option ℚ
  | [] => none
  | x :: xs => some (xs.foldl min x)

/-- `match_to_catalog_sky(fileRaDec, nthneighbor=2)` for entry `q`: the
distance from entry `q` to its nearest *other* entry, under the separation
function `dist` (the external spherical matcher).  `none` when there is no
other entry. -/
def minDistToOthers (dist : ℚ × ℚ → ℚ × ℚ → ℚ) (rows : List (ℚ × ℚ)) (q : ℕ) : Option ℚ :=
  listMinOpt
    (((List.range rows.length).filter (fun p => decide (p ≠ q))).map
      (fun p => dist (rows.getD q (0, 0)) (rows.getD p (0, 0))))

/-- Lines 331-334: the indices `q` with `d2d[q] < closerejectd`. -/
def crowdRejects (dist : ℚ × ℚ → ℚ × ℚ → ℚ) (closerejectd : ℚ)
    (rows : List (ℚ × ℚ)) : List ℕ :=
  (List.range rows.length).filter (fun q =>
    match minDistToOthers dist rows q with
    | some m => decide (m < closerejectd)
    | none => false)

/-- `del resp[catReject]`: drop the rows whose index is listed. -/
def removeIdxs (rows : List (ℚ × ℚ)) (idxs : List ℕ) : List (ℚ × ℚ) :=
  (rows.enum.filter (fun p => decide (p.1 ∉ idxs))).map (fun p => p.2)

/-- The `while True:` crowding loop, fuel-indexed.  With fewer than two rows
astropy's `nthneighbor=2` lookup fails (modelled `.error`); otherwise the loop
breaks as soon as an iteration rejects nothing, else deletes the rejected rows
and repeats. -/
def crowdingAux (dist : ℚ × ℚ → ℚ × ℚ → ℚ) (closerejectd : ℚ) :
    ℕ → List (ℚ × ℚ) → Except Unit (List (ℚ × ℚ))
  | 0, _ => .error ()
  | fuel + 1, rows =>
    if rows.length < 2 then .error ()
    else
      let rej := crowdRejects dist closerejectd rows
      if rej = [] then .ok rows
      else crowdingAux dist closerejectd fuel (removeIdxs rows rej)

/-- The crowding-rejection loop of `catalogue_call` (lines 327-338).  Each
productive iteration removes at least one row, so `rows.length + 1` units of
fuel always suffice. -/
def catalogue_call_crowding (dist : ℚ × ℚ → ℚ × ℚ → ℚ) (closerejectd : ℚ)
    (rows : List (ℚ × ℚ)) : Except Unit (List (ℚ × ℚ)) :=
  crowdingAux dist closerejectd (rows.length + 1) rows

/-! ### `find_comparisons_calibrated`, filter-table lookup (lines 355-407) -/

/-- The `FILTERS` table (lines 355-373): filter band ↦ priority-ordered list of
(catalog, magnitude column, error column). -/
def FILTERS : List (String × List (String × String × String)) :=
  [("B", [("APASS", "Bmag", "e_Bmag")]),
   ("V", [("APASS", "Vmag", "e_Vmag")]),
   ("up", [("SDSS", "umag", "e_umag"), ("SkyMapper", "uPSF", "e_uPSF"),
           ("PanSTARRS", "umag", "e_umag")]),
   ("gp", [("SDSS", "gmag", "e_mag"), ("SkyMapper", "gPSF", "e_gPSF"),
           ("PanSTARRS", "gmag", "e_gmag")]),
   ("rp", [("SDSS", "rmag", "e_rmag"), ("SkyMapper", "rPSF", "e_rPSF"),
           ("PanSTARRS", "rmag", "e_rmag")]),
   ("ip", [("SDSS", "imag", "e_imag"), ("SkyMapper", "iPSF", "e_iPSF"),
           ("PanSTARRS", "imag", "e_imag")]),
   ("zs", [("SDSS", "zmag", "e_zmag"), ("SkyMapper", "zPSF", "e_zPSF"),
           ("PanSTARRS", "zmag", "e_zmag")])]

/-- Outcome of a code path that can fail: either an exception escaped uncaught,
or the code deliberately raised `AstrosourceException(msg)`. -/
inductive RunFailure where
  | uncaught (e : PyExc)
  | astrosourceException (msg : String)
deriving DecidableEq

/-- Python `d[k]` on a dict: the value, or a raised `KeyError`. -/
def dictLookup (d : List (String × α)) (k : String) : Except PyExc α :=
  match d.find? (fun p => p.1 == k) with
  | some p => .ok p.2
  | none => .error (.keyError k)

/-- Lines 404-407:
`try: catalogues = FILTERS[filterCode] except IndexError: raise
AstrosourceException(f"{filterCode} is not accepted at present")`.
Only `IndexError` is converted; the `KeyError` a dict lookup actually raises
propagates uncaught. -/
def getCatalogues (filterCode : String) :
    Except RunFailure (List (String × String × String)) :=
  match dictLookup FILTERS filterCode with
  | .ok v => .ok v
  | .error .indexError =>
      .error (.astrosourceException (filterCode ++ " is not accepted at present"))
  | .error e => .error (.uncaught e)

/-! ### `remove_stars_targets` (lines 195-270)

The VSX variable-star scan (lines 224-252) and the single-comparison-star
tail (lines 262-270).  The matcher is external; it returns the nearest
candidate index and the separation in arcseconds. -/

/-- Failures of `remove_stars_targets`: an uncaught Python `NameError`
(reference to a name that was never bound), or a deliberately raised
`AstrosourceException`. -/
inductive RemoveStarsErr where
  | nameError (name : String)
  | astrosourceExc (msg : String)
deriving DecidableEq

/-- The `(ra, dec)` pairs of the first frame (`compFile = photlist[0]`,
lines 199-200). -/
def compCoordsOf (photlist : List (List (List ℚ))) : List (ℚ × ℚ) :=
  (photlist.headD []).map (fun r => (colQ 0 r, colQ 1 r))

/-- Line 247, `d2dcomp.arcsecond.any() < max_sep.value`: `.any()` on the numpy
scalar separation yields its truth value (`sep ≠ 0`), which Python coerces to
`1.0`/`0.0` before the `<` comparison.  So the branch fires exactly when
`(1 if sep ≠ 0 else 0) < acceptDistance`. -/
def pyAnyLt (sep maxSep : ℚ) : Bool :=
  decide ((if sep ≠ 0 then (1 : ℚ) else 0) < maxSep)

/-- The `for t in range(raCat.size):` loop over VSX entries (lines 225-252),
for the usual case of a 2-D candidate table (branch of line 230, where
`d2dcomp` is an astropy Angle and the `d2dcomp != 9999` guard of line 246 is
true).  When the match branch fires the code executes
`varStarReject.append(t)` — but `varStarReject` is never initialised anywhere
in the function, so Python raises `NameError`; the `mask[idxcomp] = False` on
the next line is never reached.  Hence in every completed run the mask stays
all-`True`. -/
def vsxScan (compCoords : List (ℚ × ℚ)) (acceptDistance : ℚ)
    (matcher : ℚ × ℚ → List (ℚ × ℚ) → ℕ × ℚ) :
    List (ℚ × ℚ) → Except RemoveStarsErr Unit
  | [] => .ok ()
  | v :: vs =>
    if pyAnyLt (matcher v compCoords).2 acceptDistance then
      .error (.nameError "varStarReject")
    else vsxScan compCoords acceptDistance matcher vs

/-- `remove_stars_targets` (lines 195-270), with the external pieces (Vizier
VSX query result `vsxCat`, astropy matcher) passed in.  After the VSX scan the
mask is still all-`True` (see `vsxScan`), so `photlist` is unchanged by the
masking of line 257.  The single-comparison-star branch (lines 262-269) then
evaluates `savetxt(parentPath / "compsUsed.csv", ...)` — but `parentPath` is
not a parameter of this function and is not defined in its scope, so Python
raises `NameError` before anything is written (the `raise
AstrosourceException("Looks like you have a single comparison star!")` of
line 269 is unreachable). -/
def remove_stars_targets (photlist : List (List (List ℚ))) (acceptDistance : ℚ)
    (vsxCat : List (ℚ × ℚ)) (matcher : ℚ × ℚ → List (ℚ × ℚ) → ℕ × ℚ) :
    Except RemoveStarsErr (List (List (List ℚ))) :=
  match vsxScan (compCoordsOf photlist) acceptDistance matcher vsxCat with
  | .error e => .error e
  | .ok () =>
    if (photlist.headD []).length = 1 then .error (.nameError "parentPath")
    else .ok photlist

/-- A rational photometry row with flux count `f` (schema as in `rowR`
below). -/
def rowQ (f : ℚ) : List ℚ := [0, 0, 0, 0, f, 0]

/-- A two-candidate, two-frame photometry list used by concrete runs of
`remove_stars_targets`. -/
def photlistQ2 : List (List (List ℚ)) := [[rowQ 1, rowQ 2], [rowQ 1, rowQ 2]]

/-- A concrete separation function for witnesses of the crowding loop
(squared planar distance; the loop's statements hold for any separation
function). -/
def distSq (p q : ℚ × ℚ) : ℚ := (p.1 - q.1) * (p.1 - q.1) + (p.2 - q.2) * (p.2 - q.2)

/-- A one-row reference frame (flux count 50) for concrete selection runs. -/
def refW : List (List ℚ) := [[0, 0, 0, 0, 50, 0]]

/-- A single-candidate `sortStars` table: one 13-column row
`(ra, dec, score, 10 zeros)` — numpy shape `(1,13)`. -/
def ssOne : List (List ℚ) := [[1, 2, 3, 0, 0, 0, 0, 0, 0, 0, 0, 0, 0]]

/-- A two-candidate `sortStars` table (two 13-column rows). -/
def ssTwo : List (List ℚ) :=
  [[1, 2, 3, 0, 0, 0, 0, 0, 0, 0, 0, 0, 0],
   [4, 5, 6, 0, 0, 0, 0, 0, 0, 0, 0, 0, 0]]

/-! ### numpy statistics over real numbers

`find_comparisons` and the calibration aggregation use `log10`, `median` and
(population) `std`; those are modelled over `ℝ`.  numpy's `min`/`median`/`std`
error or return NaN on empty input; the defaults below (`0`) are never hit by
the claims. -/

noncomputable section

/-- `numpy.min` of a list (first element as seed, `0` for the empty list). -/
def pymin : List ℝ → ℝ
  | [] => 0
  | x :: xs => xs.foldl min x

/-- `numpy.mean` (population mean). -/
def pymean (l : List ℝ) : ℝ := l.sum / l.length

/-- `numpy.var` (population variance, `ddof = 0`). -/
def pyvar (l : List ℝ) : ℝ := ((l.map (fun x => (x - pymean l) ^ 2)).sum) / l.length

/-- `numpy.std` (population standard deviation). -/
def pystd (l : List ℝ) : ℝ := Real.sqrt (pyvar l)

/-- Insert into an ascending list (helper for `pymedian`). -/
def insertAsc (x : ℝ) : List ℝ → List ℝ
  | [] => [x]
  | y :: ys => if x ≤ y then x :: y :: ys else y :: insertAsc x ys

/-- Ascending sort of a real list (helper for `pymedian`). -/
def sortAsc : List ℝ → List ℝ
  | [] => []
  | x :: xs => insertAsc x (sortAsc xs)

/-- `numpy.median`: middle of the sorted values, mean of the two middle values
for even length. -/
def pymedian (l : List ℝ) : ℝ :=
  if l.length % 2 = 1 then (sortAsc l).getD (l.length / 2) 0
  else ((sortAsc l).getD (l.length / 2 - 1) 0 + (sortAsc l).getD (l.length / 2) 0) / 2

/-- `numpy.log10`. -/
def log10 (x : ℝ) : ℝ := Real.logb 10 x

/-- `row.getD i 0`: numpy row indexing `row[i]` (real model). -/
def colR (i : ℕ) (row : List ℝ) : ℝ := row.getD i 0

/-! ### `find_comparisons` (lines 25-121), the iterative rejection loop

State per iteration: the current candidate table `comparisons`
(frames × candidates × columns), the keep mask `starRejecter` (length fixed
at the *initial* candidate count — the code never re-bases it after columns
are dropped) and the previous mask `oldrejects`. -/

/-- Line 63, `np.ndarray.sum(comparisons, axis=1)[:,4]`: the per-frame sum of
flux counts (column 4) over the initial candidate set; computed once before
the loop and never recomputed. -/
def fileCountOf (comparisons : List (List (List ℝ))) : List ℝ :=
  comparisons.map (fun frame => (frame.map (colR 4)).sum)

/-- Lines 182-184: candidate `j`'s differential magnitudes
`2.5 * log10(comparisons[q][j][4] / fileCount[q])` across frames `q`. -/
def compDiffMags (comparisons : List (List (List ℝ))) (fileCount : List ℝ)
    (j : ℕ) : List ℝ :=
  (List.range fileCount.length).map (fun q =>
    2.5 * log10 (colR 4 ((comparisons.getD q []).getD j []) / fileCount.getD q 0))

/-- `calculate_comparison_variation` (lines 172-193): per candidate, the
population std of its differential magnitudes, and the 13-column `sortStars`
row `(ra, dec, std, 0 × 10)`.  The guard `if std(compDiffMags) == np.nan:
sys.exit()` of lines 189-190 compares with `==` against NaN, which is false
for every float, so it never fires; in this real-valued model (no NaN, see
the NaN-aware model below) it is omitted. -/
def calculate_comparison_variation (comparisons : List (List (List ℝ)))
    (fileCount : List ℝ) : List ℝ × List (List ℝ) :=
  ((List.range (comparisons.headD []).length).map (fun j =>
      pystd (compDiffMags comparisons fileCount j)),
   (List.range (comparisons.headD []).length).map (fun j =>
      [colR 0 ((comparisons.headD []).getD j []),
       colR 1 ((comparisons.headD []).getD j []),
       pystd (compDiffMags comparisons fileCount j), 0, 0, 0, 0, 0, 0, 0, 0, 0, 0]))

/-- Lines 87-93, the inner rejection pass: for each position `j` below the
score count, set the keep mask to `False` when the score exceeds the
threshold `median + stdMultiplier * std`; other positions keep their old
value (the mask is never reset to `True`).  The `or isnan(stdComp)` disjunct
never holds in the real-valued model. -/
def updateRejecter (scores : List ℝ) (threshold : ℝ) (rej : List Bool) : List Bool :=
  (List.range rej.length).map (fun j =>
    if j < scores.length ∧ threshold < scores.getD j 0 then false else rej.getD j true)

/-- Lines 86-97: the whole-mask update of one iteration.  Rejection only runs
when `min(stdCompStar) > 0.002`; otherwise the mask is left untouched. -/
def iterMask (stdMultiplier : ℝ) (scores : List ℝ) (rej : List Bool) : List Bool :=
  if 0.002 < pymin scores then
    updateRejecter scores (pymedian scores + stdMultiplier * pystd scores) rej
  else rej

/-- Line 100, `c[starRejecter]` for one frame: numpy boolean indexing.  A mask
whose length differs from the axis raises `IndexError`, modelled as `none`. -/
def applyMask (mask : List Bool) (rows : List (List ℝ)) : Option (List (List ℝ)) :=
  if rows.length = mask.length
  then some (((rows.zip mask).filter (fun p => p.2)).map (fun p => p.1))
  else none

/-- Line 100 over every frame (the comprehension evaluates frame by frame;
the first mismatching frame raises). -/
def applyMaskAll (mask : List Bool) : List (List (List ℝ)) → Option (List (List (List ℝ)))
  | [] => some []
  | fr :: rest =>
    match applyMask mask fr, applyMaskAll mask rest with
    | some fr2, some rest2 => some (fr2 :: rest2)
    | _, _ => none

/-- Reasons the rejection loop can fail to produce a result:
`maskMismatch` is numpy's `IndexError` from line 100, `outOfFuel` pads the
fuel-indexed recursion (never reached with the fuel supplied below). -/
inductive LoopErr where
  | maskMismatch
  | outOfFuel
deriving DecidableEq

/-- The loop's result: the final candidate table, the last `sortStars`, the
last `variabilityMax = min(scores) * variabilityMultiplier` (line 74) and the
number of iterations executed. -/
structure RejectState where
  comparisons : List (List (List ℝ))
  sortStars : List (List ℝ)
  variabilityMax : ℝ
  iterations : ℕ

/-- The `while True:` loop of lines 67-115, fuel-indexed.  Each iteration
recomputes the scores against the fixed `fileCount`, updates the mask,
re-applies the mask to every frame (line 100 — unconditionally, even on the
final pass), and breaks when the mask equals the previous iteration's mask
(line 109); otherwise the previous mask is overwritten (line 115). -/
def rejectionLoopAux (stdMultiplier variabilityMultiplier : ℝ) (fileCount : List ℝ) :
    ℕ → List (List (List ℝ)) → List Bool → List Bool → ℕ → Except LoopErr RejectState
  | 0, _, _, _, _ => .error .outOfFuel
  | fuel + 1, comps, rej, old, iters =>
    let scores := (calculate_comparison_variation comps fileCount).1
    let sortStars := (calculate_comparison_variation comps fileCount).2
    let variabilityMax := pymin scores * variabilityMultiplier
    let rej2 := iterMask stdMultiplier scores rej
    match applyMaskAll rej2 comps with
    | none => .error .maskMismatch
    | some comps2 =>
      if rej2 = old then .ok ⟨comps2, sortStars, variabilityMax, iters + 1⟩
      else rejectionLoopAux stdMultiplier variabilityMultiplier fileCount
        fuel comps2 rej2 rej2 (iters + 1)

/-- The rejection loop of `find_comparisons`, entered with an all-`True` keep
mask and an all-`False` previous mask (lines 65-66) over the initial
candidate count. -/
def find_comparisons_rejection (stdMultiplier variabilityMultiplier : ℝ)
    (comparisons : List (List (List ℝ))) : Except LoopErr RejectState :=
  rejectionLoopAux stdMultiplier variabilityMultiplier (fileCountOf comparisons)
    ((comparisons.headD []).length + 2) comparisons
    (List.replicate (comparisons.headD []).length true)
    (List.replicate (comparisons.headD []).length false) 0

/-! ### NaN-aware model of `calculate_comparison_variation`

For the NaN claim the float semantics matter: `2.5 * log10(v)` is NaN for
`v < 0` and `-inf` for `v = 0`, and `numpy.std` of a list containing either
is NaN.  `Option ℝ` with `none` = "not a finite real" captures exactly the
propagation the claim is about. -/

/-- `2.5 * log10(v)` with NaN/`-inf` tracking: `none` unless `v > 0`. -/
def nlog10mul (v : ℝ) : Option ℝ :=
  if 0 < v then some (2.5 * Real.logb 10 v) else none

/-- `numpy.std` over possibly non-finite values: NaN (`none`) as soon as any
input is non-finite. -/
def nstd (l : List (Option ℝ)) : Option ℝ :=
  if l.all (fun x => x.isSome) then some (pystd (l.filterMap id)) else none

/-- Python `x == np.nan`: false for *every* float `x` — IEEE NaN compares
unequal to everything, including itself. -/
def pyEqNan (x : Option ℝ) : Bool :=
  match x with
  | none => false
  | some _ => false

/-- Candidate `j`'s differential magnitudes in the NaN-aware model. -/
def compDiffMagsN (comparisons : List (List (List ℝ))) (fileCount : List ℝ)
    (j : ℕ) : List (Option ℝ) :=
  (List.range fileCount.length).map (fun q =>
    nlog10mul (colR 4 ((comparisons.getD q []).getD j []) / fileCount.getD q 0))

/-- `calculate_comparison_variation` (lines 172-193) with NaN tracking: for
each candidate the guard of lines 189-190 runs (`sys.exit()` modelled as
`.error ()`), then the score — NaN or not — is appended to `stdCompStar`. -/
def calculate_comparison_variationN (comparisons : List (List (List ℝ)))
    (fileCount : List ℝ) : Except Unit (List (Option ℝ)) :=
  (List.range (comparisons.headD []).length).foldlM (fun acc j =>
    let s := nstd (compDiffMagsN comparisons fileCount j)
    if pyEqNan s then .error () else .ok (acc ++ [s])) []

/-! ### `find_comparisons_calibrated`, final aggregation (lines 541-573)

`calibCompUsed` is the frames × comparison-stars table of calibrated
magnitudes: one row per frame (`calibCompUsed.append(lineCompUsed)` per
file), one column per comparison star. -/

/-- `calibCompUsed[:,r]`: the calibrated magnitudes of star `r` across
frames. -/
def columnOf (t : List (List ℝ)) (r : ℕ) : List ℝ := t.map (fun row => row.getD r 0)

/-- Lines 546-548: `sumStd[r] = std(calibCompUsed[:,r])`, one entry per
comparison star (`r` ranges over `len(calibCompUsed[0,:])`, the column
count). -/
def sumStdOf (t : List (List ℝ)) : List ℝ :=
  (List.range (t.headD []).length).map (fun r => pystd (columnOf t r))

/-- Line 559: `errCalib = median(sumStd) / pow(len(calibCompUsed[0,:]), 0.5)`.
`len(calibCompUsed[0,:])` is the number of *comparison stars* (columns), not
the number of frames (rows). -/
def errCalibOf (t : List (List ℝ)) : ℝ :=
  pymedian (sumStdOf t) / Real.sqrt ((t.headD []).length : ℝ)

/-- Spec-side view of the same table: the list of per-star columns. -/
def columnsOf (t : List (List ℝ)) : List (List ℝ) :=
  (List.range (t.headD []).length).map (columnOf t)

/-! ### Concrete inputs used by the witnesses and counterexamples -/

/-- A photometry row with flux count `f` (columns `ra, dec, mag, magerr,
counts, counterr`; only column 4 matters to the rejection loop). -/
def rowR (f : ℝ) : List ℝ := [0, 0, 0, 0, f, 0]

/-- `10 ^ (1/50)` — a flux ratio whose `log10` is exactly `0.02`. -/
def rSmall : ℝ := (10 : ℝ) ^ ((1 : ℝ) / 50)

/-- `10 ^ (4/5)` — a flux ratio whose `log10` is exactly `0.8`. -/
def rBig : ℝ := (10 : ℝ) ^ ((4 : ℝ) / 5)

/-- Balancing flux `w = (rBig - 1) / (rSmall - 1)`: chosen so the two frames
below have equal total flux. -/
def wBal : ℝ := (rBig - 1) / (rSmall - 1)

/-- The common per-frame ensemble flux total of the two frames below. -/
def fluxTotal : ℝ := 3 * rSmall + 3 + wBal + rBig

/-- Frame 0 of the 8-candidate failing input. -/
def frameA : List (List ℝ) :=
  [rowR rSmall, rowR 1, rowR rSmall, rowR 1, rowR rSmall, rowR 1, rowR wBal, rowR rBig]

/-- Frame 1 of the 8-candidate failing input: candidates 0-6 have flux ratio
`rSmall^±1` (variability score `1/40` each), candidate 7 has ratio `rBig`
(score `1`), and both frames sum to the same total. -/
def frameB : List (List ℝ) :=
  [rowR 1, rowR rSmall, rowR 1, rowR rSmall, rowR 1, rowR rSmall,
   rowR (wBal * rSmall), rowR 1]

/-- The failing input for the rejection loop: 2 frames × 8 candidates, on
which the first iteration rejects exactly candidate 7. -/
def comps8 : List (List (List ℝ)) := [frameA, frameB]

/-- 2 frames × 2 identical candidates: no candidate is ever rejected
(`min(scores) = 0 ≤ 0.002`). -/
def comps2 : List (List (List ℝ)) :=
  [[rowR 1, rowR 1], [rowR 1, rowR 1]]

/-- 2 frames × 3 identical candidates (same shape of behaviour as `comps2`,
used by a witness). -/
def comps3same : List (List (List ℝ)) :=
  [[rowR 2, rowR 2, rowR 2], [rowR 2, rowR 2, rowR 2]]

/-- 2 frames × 2 candidates where candidate 0 has a negative flux count in
frame 0: its flux ratio is negative, its differential magnitude is NaN, and
so is its variability score. -/
def compsNan : List (List (List ℝ)) :=
  [[rowR (-1), rowR 2], [rowR 1, rowR 2]]

/-- 4 frames × 2 comparison stars of calibrated magnitudes: star 0 scatters
(`std = 1`), star 1 is constant (`std = 0`). -/
def calibT4 : List (List ℝ) := [[0, 3], [2, 3], [0, 3], [2, 3]]

end

/-! ## Theorems -/

/-- C6: evaluation of the target-exclusion filter at a failing input.  The
catalog entry `(ra 10, dec 21)` has the *same* right ascension as the target
`(10, 20)` — well within 0.0014° — yet it survives the filter, because the
Python `and` of the two `where(...)` tuples keeps only the declination
condition.  The claim says every surviving entry differs from every target by
more than 0.0014° in right ascension as well. -/
theorem remove_near_targets_keeps_ra_close_entry :
    remove_near_targets [⟨10, 21⟩] [(10, 20)] = [⟨10, 21⟩] ∧
    ¬ (0.0014 : ℚ) < |(10 : ℚ) - 10| := by
  constructor
  · simp [remove_near_targets]
    norm_num
  · norm_num

/-- C8: evaluation of the filter-band lookup at an unsupported band.  The
`try` of lines 404-407 only catches `IndexError`, but `FILTERS[filterCode]`
raises `KeyError`, so the lookup fails with an uncaught `KeyError` instead of
the `AstrosourceException` the claim describes. -/
theorem getCatalogues_unsupported_uncaught_keyError :
    getCatalogues "J" = .error (.uncaught (.keyError "J")) := by
  decide

/-- If no VSX entry fires the match branch, the scan completes. -/
theorem vsxScan_ok (compCoords : List (ℚ × ℚ)) (acceptDistance : ℚ)
    (matcher : ℚ × ℚ → List (ℚ × ℚ) → ℕ × ℚ) :
    ∀ vsxCat : List (ℚ × ℚ),
      (∀ v ∈ vsxCat, pyAnyLt (matcher v compCoords).2 acceptDistance = false) →
      vsxScan compCoords acceptDistance matcher vsxCat = .ok () := by
  intro vsxCat
  induction vsxCat with
  | nil => intro _; rfl
  | cons v vs ih =>
    intro h
    have hv := h v (List.mem_cons_self v vs)
    simp only [vsxScan, hv, Bool.false_eq_true, if_false]
    exact ih (fun u hu => h u (List.mem_cons_of_mem v hu))

/-- If some VSX entry fires the match branch, the scan hits the
never-initialised `varStarReject` and raises `NameError`. -/
theorem vsxScan_nameError (compCoords : List (ℚ × ℚ)) (acceptDistance : ℚ)
    (matcher : ℚ × ℚ → List (ℚ × ℚ) → ℕ × ℚ) :
    ∀ vsxCat : List (ℚ × ℚ),
      (∃ v ∈ vsxCat, pyAnyLt (matcher v compCoords).2 acceptDistance = true) →
      vsxScan compCoords acceptDistance matcher vsxCat
        = .error (.nameError "varStarReject") := by
  intro vsxCat
  induction vsxCat with
  | nil => rintro ⟨v, hv, _⟩; exact absurd hv (List.not_mem_nil v)
  | cons v vs ih =>
    rintro ⟨u, hu, hfire⟩
    by_cases hv : pyAnyLt (matcher v compCoords).2 acceptDistance = true
    · simp only [vsxScan, hv, if_true]
    · rcases List.mem_cons.mp hu with rfl | hu2
      · exact absurd hfire hv
      · simp only [vsxScan, hv, if_false]
        exact ih ⟨u, hu2, hfire⟩

/-- C9 (amended): when the candidate table degenerates to a single
comparison star, `remove_stars_targets` does detect it as an explicit special
case — but instead of persisting the star's records with a warning it fails:
the `savetxt` call references `parentPath`, which is undefined in the
function, so the run aborts with a `NameError` (and even the intended path
ends in `raise AstrosourceException`, not a warning). -/
theorem remove_stars_targets_single_star_aborts
    (photlist : List (List (List ℚ))) (acceptDistance : ℚ)
    (vsxCat : List (ℚ × ℚ)) (matcher : ℚ × ℚ → List (ℚ × ℚ) → ℕ × ℚ)
    (hscan : ∀ v ∈ vsxCat,
      pyAnyLt (matcher v (compCoordsOf photlist)).2 acceptDistance = false)
    (hone : (photlist.headD []).length = 1) :
    remove_stars_targets photlist acceptDistance vsxCat matcher
      = .error (.nameError "parentPath") := by
  unfold remove_stars_targets
  rw [vsxScan_ok (compCoordsOf photlist) acceptDistance matcher vsxCat hscan]
  show (if (photlist.headD []).length = 1
      then (Except.error (RemoveStarsErr.nameError "parentPath"))
      else Except.ok photlist) = Except.error (RemoveStarsErr.nameError "parentPath")
  rw [if_pos hone]

/-- Witness for C9's amended theorem at a concrete single-star input. -/
theorem remove_stars_targets_single_star_aborts_witness :
    remove_stars_targets [[rowQ 1]] 1 [(3, 3)] (fun _ _ => (0, 5))
      = .error (.nameError "parentPath") := by
  exact remove_stars_targets_single_star_aborts [[rowQ 1]] 1 [(3, 3)]
    (fun _ _ => (0, 5)) (by decide) (by decide)

/-- C9 counterexample: at a concrete single-comparison-star input the function
returns an error (aborting the run), contradicting the claim that the case is
handled with a warning, persisting the star's records, and not as an error. -/
theorem remove_stars_targets_single_star_is_error :
    remove_stars_targets [[rowQ 2]] 1 [] (fun _ _ => (0, 0))
      = .error (.nameError "parentPath") := by
  decide

/-- C10 (amended): the variable-star exclusion path of
`remove_stars_targets` fails with the undefined-name error on
`varStarReject` exactly when some VSX entry fires the match branch of
line 247 — because of the `.any()` coercion that branch fires when
`(1 if separation ≠ 0 else 0) < acceptDistance`, so with the default
acceptance distance of 1.0 only exact-coincidence matches trigger it; when no
entry fires, the path completes normally and (multi-star case) returns the
photometry list unchanged. -/
theorem remove_stars_targets_vsx_spec
    (photlist : List (List (List ℚ))) (acceptDistance : ℚ)
    (vsxCat : List (ℚ × ℚ)) (matcher : ℚ × ℚ → List (ℚ × ℚ) → ℕ × ℚ) :
    ((∃ v ∈ vsxCat,
        pyAnyLt (matcher v (compCoordsOf photlist)).2 acceptDistance = true) →
      remove_stars_targets photlist acceptDistance vsxCat matcher
        = .error (.nameError "varStarReject"))
    ∧ ((∀ v ∈ vsxCat,
        pyAnyLt (matcher v (compCoordsOf photlist)).2 acceptDistance = false) →
       (photlist.headD []).length ≠ 1 →
      remove_stars_targets photlist acceptDistance vsxCat matcher = .ok photlist) := by
  constructor
  · intro hex
    unfold remove_stars_targets
    rw [vsxScan_nameError (compCoordsOf photlist) acceptDistance matcher vsxCat hex]
  · intro hall hne
    unfold remove_stars_targets
    rw [vsxScan_ok (compCoordsOf photlist) acceptDistance matcher vsxCat hall]
    show (if (photlist.headD []).length = 1
        then (Except.error (RemoveStarsErr.nameError "parentPath"))
        else Except.ok photlist) = Except.ok photlist
    rw [if_neg hne]

/-- Witness for C10's amended theorem: an exact-coincidence match (separation
0, which is the one case the coerced branch accepts at the default distance)
crashes the scan with the `varStarReject` `NameError`. -/
theorem remove_stars_targets_vsx_spec_witness :
    remove_stars_targets photlistQ2 1 [(5, 5)] (fun _ _ => (0, 0))
      = .error (.nameError "varStarReject") := by
  exact (remove_stars_targets_vsx_spec photlistQ2 1 [(5, 5)]
    (fun _ _ => (0, 0))).1 (by decide)

/-- C10 counterexample: a VSX entry matching a candidate at separation 1/2
arcsecond — strictly within the acceptance distance 1 — does *not* crash the
function: the run completes normally, contradicting the claim that every
input with a match within the acceptance distance fails with the
undefined-name error.  (`.any()` turns the nonzero separation into `True`,
i.e. `1.0`, and `1.0 < 1.0` is false.) -/
theorem remove_stars_targets_close_match_completes :
    (0 : ℚ) < mkRat 1 2 ∧ mkRat 1 2 < 1 ∧
    remove_stars_targets photlistQ2 1 [(5, 5)] (fun _ _ => (0, mkRat 1 2))
      = .ok photlistQ2 := by
  decide

/-- A fold with `min` stays below its seed. -/
theorem foldl_min_le_seed : ∀ (ys : List ℚ) (y : ℚ), ys.foldl min y ≤ y := by
  intro ys
  induction ys with
  | nil => intro y; exact le_refl y
  | cons z zs ih =>
    intro y
    calc (z :: zs).foldl min y = zs.foldl min (min y z) := rfl
    _ ≤ min y z := ih (min y z)
    _ ≤ y := min_le_left y z

/-- A fold with `min` stays below every member. -/
theorem foldl_min_le_mem : ∀ (ys : List ℚ) (y x : ℚ), x ∈ ys → ys.foldl min y ≤ x := by
  intro ys
  induction ys with
  | nil => intro y x hx; exact absurd hx (List.not_mem_nil x)
  | cons z zs ih =>
    intro y x hx
    rcases List.mem_cons.mp hx with rfl | hx2
    · calc (x :: zs).foldl min y = zs.foldl min (min y x) := rfl
      _ ≤ min y x := foldl_min_le_seed zs (min y x)
      _ ≤ x := min_le_right y x
    · exact ih (min y z) x hx2

/-- The minimum of a nonempty list is `some` value below every member. -/
theorem listMinOpt_le (l : List ℚ) (x : ℚ) (hx : x ∈ l) :
    ∃ m, listMinOpt l = some m ∧ m ≤ x := by
  cases l with
  | nil => exact absurd hx (List.not_mem_nil x)
  | cons y ys =>
    refine ⟨ys.foldl min y, rfl, ?_⟩
    rcases List.mem_cons.mp hx with rfl | hx2
    · exact foldl_min_le_seed ys x
    · exact foldl_min_le_mem ys y x hx2

/-- An empty reject list means every entry is at least `closerejectd` away from
every other entry. -/
theorem crowdRejects_nil_far (dist : ℚ × ℚ → ℚ × ℚ → ℚ) (closerejectd : ℚ)
    (s : List (ℚ × ℚ)) (h : crowdRejects dist closerejectd s = []) :
    ∀ i j, i < s.length → j < s.length → i ≠ j →
      closerejectd ≤ dist (s.getD i (0, 0)) (s.getD j (0, 0)) := by
  intro i j hi hj hij
  have hmem : dist (s.getD i (0, 0)) (s.getD j (0, 0)) ∈
      (((List.range s.length).filter (fun p => decide (p ≠ i))).map
        (fun p => dist (s.getD i (0, 0)) (s.getD p (0, 0)))) := by
    refine List.mem_map_of_mem _ ?_
    exact List.mem_filter.mpr ⟨List.mem_range.mpr hj, decide_eq_true (Ne.symm hij)⟩
  obtain ⟨m, hm, hle⟩ :=
    listMinOpt_le _ (dist (s.getD i (0, 0)) (s.getD j (0, 0))) hmem
  have hfi : ∀ a ∈ List.range s.length,
      ¬((fun q => match minDistToOthers dist s q with
          | some m => decide (m < closerejectd)
          | none => false) a = true) := by
    have := List.filter_eq_nil_iff.mp h
    exact this
  have hi2 := hfi i (List.mem_range.mpr hi)
  simp only [minDistToOthers] at hi2
  rw [hm] at hi2
  simp only [decide_eq_true_eq] at hi2
  exact le_trans (not_lt.mp hi2) hle

/-- Partial correctness of the fuel-indexed crowding loop: any returned table
is a fixed point of the rejection scan. -/
theorem crowdingAux_ok (dist : ℚ × ℚ → ℚ × ℚ → ℚ) (closerejectd : ℚ) :
    ∀ (fuel : ℕ) (rows s : List (ℚ × ℚ)),
      crowdingAux dist closerejectd fuel rows = .ok s →
      crowdRejects dist closerejectd s = [] := by
  intro fuel
  induction fuel with
  | zero => intro rows s h; exact absurd h (by simp [crowdingAux])
  | succ fuel ih =>
    intro rows s h
    rw [crowdingAux] at h
    by_cases h2 : rows.length < 2
    · rw [if_pos h2] at h; exact absurd h (by simp)
    · rw [if_neg h2] at h
      by_cases h3 : crowdRejects dist closerejectd rows = []
      · simp only [h3, if_true] at h
        cases h
        exact h3
      · simp only [h3, if_false] at h
        exact ih _ _ h

/-- C5: the crowding-rejection loop of `catalogue_call`.  Whenever the loop
exits with a surviving table `s`, the rejection scan on `s` is empty (the
loop exits exactly when an iteration rejects nothing) and no two distinct
surviving entries are within `closerejectd` of each other — every entry's
nearest non-self neighbour is at distance at least `closerejectd`; and
conversely a table on which the scan rejects nothing exits immediately,
unchanged. -/
theorem catalogue_call_crowding_spec (dist : ℚ × ℚ → ℚ × ℚ → ℚ)
    (closerejectd : ℚ) (rows s : List (ℚ × ℚ)) :
    (catalogue_call_crowding dist closerejectd rows = .ok s →
      crowdRejects dist closerejectd s = [] ∧
      ∀ i j, i < s.length → j < s.length → i ≠ j →
        closerejectd ≤ dist (s.getD i (0, 0)) (s.getD j (0, 0)))
    ∧ (2 ≤ rows.length → crowdRejects dist closerejectd rows = [] →
      catalogue_call_crowding dist closerejectd rows = .ok rows) := by
  constructor
  · intro h
    have hnil := crowdingAux_ok dist closerejectd _ rows s h
    exact ⟨hnil, crowdRejects_nil_far dist closerejectd s hnil⟩
  · intro h2 h3
    unfold catalogue_call_crowding
    rw [crowdingAux, if_neg (Nat.not_lt.mpr h2)]
    simp only [h3, if_true]

/-- Witness for C5 at a concrete two-entry catalog 10 units apart with
`closerejectd = 5`: the loop exits at once and the returned table is a fixed
point. -/
theorem catalogue_call_crowding_spec_witness :
    catalogue_call_crowding distSq 5 [(0, 0), (10, 0)] = .ok [(0, 0), (10, 0)] ∧
    crowdRejects distSq 5 [(0, 0), (10, 0)] = [] := by
  have hnil : crowdRejects distSq 5 [(0, 0), (10, 0)] = [] := by
    norm_num [crowdRejects, minDistToOthers, listMinOpt, distSq, List.range_succ]
  have h := catalogue_call_crowding_spec distSq 5 [(0, 0), (10, 0)] [(0, 0), (10, 0)]
  exact ⟨h.2 (by norm_num) hnil, hnil⟩

/-- Fold characterisation of the selection loop: starting from any state, the
accepted rows are exactly those of the declarative `acceptedFrom` reading
seeded with the state's running sum, and the final running sum has *every*
candidate's matched flux contribution added, accepted or not. -/
theorem selectFold_char (rf ss : List (List ℚ)) (mI : ℚ × ℚ → ℕ)
    (thr vM : ℚ) (n : ℕ) :
    ∀ (L : List ℕ) (st : SelState),
      (L.foldl (selectStep rf ss mI thr vM n) st).compFile
          = st.compFile ++ acceptedFrom rf ss mI thr vM n st.tempCount L ∧
      (L.foldl (selectStep rf ss mI thr vM n) st).tempCount
          = st.tempCount + (L.map (fun j => selContrib rf mI (ss.getD j []))).sum := by
  intro L
  induction L with
  | nil => intro st; simp [acceptedFrom]
  | cons j js ih =>
    intro st
    rw [List.foldl_cons]
    by_cases h1 : st.tempCount < thr
    · by_cases h2 : n = 1 ∨ colQ 2 (ss.getD j []) < vM
      · have hstep : selectStep rf ss mI thr vM n st j
            = ⟨st.compFile ++ [[colQ 0 (ss.getD j []), colQ 1 (ss.getD j []),
                colQ 2 (ss.getD j [])]],
               st.tempCount + selContrib rf mI (ss.getD j []),
               st.finalCount + selContrib rf mI (ss.getD j [])⟩ := by
          simp only [selectStep]
          rw [if_pos h1, if_pos h2]
        rw [hstep]
        obtain ⟨hc, ht⟩ := ih ⟨st.compFile ++ [[colQ 0 (ss.getD j []),
          colQ 1 (ss.getD j []), colQ 2 (ss.getD j [])]],
          st.tempCount + selContrib rf mI (ss.getD j []),
          st.finalCount + selContrib rf mI (ss.getD j [])⟩
        constructor
        · rw [hc]
          simp only [acceptedFrom]
          rw [if_pos (⟨h1, h2⟩ : st.tempCount < thr ∧
            (n = 1 ∨ colQ 2 (ss.getD j []) < vM))]
          rw [List.append_assoc]
        · rw [ht]
          simp only [List.map_cons, List.sum_cons]
          ring
      · have hstep : selectStep rf ss mI thr vM n st j
            = ⟨st.compFile, st.tempCount + selContrib rf mI (ss.getD j []),
               st.finalCount⟩ := by
          simp only [selectStep]
          rw [if_pos h1, if_neg h2]
        rw [hstep]
        obtain ⟨hc, ht⟩ := ih ⟨st.compFile,
          st.tempCount + selContrib rf mI (ss.getD j []), st.finalCount⟩
        constructor
        · rw [hc]
          simp only [acceptedFrom]
          rw [if_neg (fun hcc => h2 hcc.2)]
          rw [List.nil_append]
        · rw [ht]
          simp only [List.map_cons, List.sum_cons]
          ring
    · have hstep : selectStep rf ss mI thr vM n st j
          = ⟨st.compFile, st.tempCount + selContrib rf mI (ss.getD j []),
             st.finalCount⟩ := by
        simp only [selectStep]
        rw [if_neg h1]
      rw [hstep]
      obtain ⟨hc, ht⟩ := ih ⟨st.compFile,
        st.tempCount + selContrib rf mI (ss.getD j []), st.finalCount⟩
      constructor
      · rw [hc]
        simp only [acceptedFrom]
        rw [if_neg (fun hcc => h1 hcc.1)]
        rw [List.nil_append]
      · rw [ht]
        simp only [List.map_cons, List.sum_cons]
        ring

/-- Every row accepted by the declarative selection satisfies the variability
ceiling, unless the walked candidate list has exactly one element. -/
theorem acceptedFrom_ceiling (rf ss : List (List ℚ)) (mI : ℚ × ℚ → ℕ)
    (thr vM : ℚ) (n : ℕ) :
    ∀ (L : List ℕ) (c : ℚ) (row : List ℚ),
      row ∈ acceptedFrom rf ss mI thr vM n c L → n = 1 ∨ colQ 2 row < vM := by
  intro L
  induction L with
  | nil => intro c row h; exact absurd h (List.not_mem_nil row)
  | cons j js ih =>
    intro c row h
    simp only [acceptedFrom] at h
    rcases List.mem_append.mp h with h1 | h2
    · by_cases hc : c < thr ∧ (n = 1 ∨ colQ 2 (ss.getD j []) < vM)
      · rw [if_pos hc] at h1
        have hrow : row = [colQ 0 (ss.getD j []), colQ 1 (ss.getD j []),
            colQ 2 (ss.getD j [])] := by
          simpa using h1
        rcases hc.2 with h3 | h3
        · exact Or.inl h3
        · right
          rw [hrow]
          exact h3
      · rw [if_neg hc] at h1
        exact absurd h1 (List.not_mem_nil row)
    · exact ih _ row h2

/-- C2 (amended): the selection loop of `final_candidate_catalogue`.  For any
candidate table not of numpy shape `(1,13)`: the candidate indices are walked
as a permutation of all candidates in ascending order of the column-2
variability score; the loop returns normally with *every* candidate's
reference-frame flux contribution added to the running sum, accepted or not;
the accepted rows are exactly those whose pre-addition running sum is below
`thresholdCounts` and which satisfy `len(sortorder) = 1 ∨ score <
variabilityMax`; consequently every accepted candidate's score is below
`variabilityMax` unless the walked list has exactly one element.  A
single-candidate `(1,13)` table, however, is wrapped by lines 137-138 and the
first loop pass raises `IndexError` at line 147: the lone candidate is
neither matched, nor accepted, nor summed, so the single-survivor acceptance
clause of the original claim never executes. -/
theorem final_candidate_catalogue_selection (rf ss : List (List ℚ))
    (mI : ℚ × ℚ → ℕ) (thr vM : ℚ) :
    (¬(ss.length = 1 ∧ (ss.headD []).length = 13) →
      List.Perm (argsortKeys (ss.map (colQ 2))) (List.range ss.length) ∧
      List.Sorted (· ≤ ·)
        ((argsortKeys (ss.map (colQ 2))).map (fun j => (ss.map (colQ 2)).getD j 0)) ∧
      ∃ st, final_candidate_catalogue rf ss mI thr vM = Except.ok st ∧
        st.tempCount = ((argsortKeys (ss.map (colQ 2))).map
            (fun j => selContrib rf mI (ss.getD j []))).sum ∧
        st.compFile = acceptedFrom rf ss mI thr vM
            (argsortKeys (ss.map (colQ 2))).length 0 (argsortKeys (ss.map (colQ 2))) ∧
        ∀ row ∈ st.compFile,
          (argsortKeys (ss.map (colQ 2))).length = 1 ∨ colQ 2 row < vM)
    ∧ (ss.length = 1 → (ss.headD []).length = 13 →
        final_candidate_catalogue rf ss mI thr vM = Except.error PyExc.indexError) := by
  constructor
  · intro hshape
    have hperm : List.Perm (argsortKeys (ss.map (colQ 2))) (List.range ss.length) := by
      have h := List.perm_insertionSort
        (fun i j => (ss.map (colQ 2)).getD i 0 ≤ (ss.map (colQ 2)).getD j 0)
        (List.range (ss.map (colQ 2)).length)
      simpa [argsortKeys, List.length_map] using h
    have hsorted : List.Sorted (· ≤ ·)
        ((argsortKeys (ss.map (colQ 2))).map (fun j => (ss.map (colQ 2)).getD j 0)) := by
      have hs : List.Sorted
          (fun i j => (ss.map (colQ 2)).getD i 0 ≤ (ss.map (colQ 2)).getD j 0)
          (argsortKeys (ss.map (colQ 2))) := by
        haveI ht1 : IsTotal ℕ
            (fun i j => (ss.map (colQ 2)).getD i 0 ≤ (ss.map (colQ 2)).getD j 0) :=
          ⟨fun a b => le_total _ _⟩
        haveI ht2 : IsTrans ℕ
            (fun i j => (ss.map (colQ 2)).getD i 0 ≤ (ss.map (colQ 2)).getD j 0) :=
          ⟨fun a b c hab hbc => le_trans hab hbc⟩
        exact List.sorted_insertionSort _ _
      exact List.Pairwise.map _ (fun a b hab => hab) hs
    have hfc : final_candidate_catalogue rf ss mI thr vM
        = Except.ok ((argsortKeys (ss.map (colQ 2))).foldl
            (selectStep rf ss mI thr vM (argsortKeys (ss.map (colQ 2))).length)
            ⟨[], 0, 0⟩) := by
      simp only [final_candidate_catalogue]
      rw [if_neg hshape]
    obtain ⟨hcomp, htmp⟩ := selectFold_char rf ss mI thr vM
      (argsortKeys (ss.map (colQ 2))).length (argsortKeys (ss.map (colQ 2))) ⟨[], 0, 0⟩
    refine ⟨hperm, hsorted, _, hfc, ?_, ?_, ?_⟩
    · rw [htmp]
      simp
    · rw [hcomp]
      simp
    · intro row hrow
      rw [hcomp] at hrow
      simp only [List.nil_append] at hrow
      exact acceptedFrom_ceiling rf ss mI thr vM _ _ 0 row hrow
  · intro h1 h2
    simp only [final_candidate_catalogue]
    rw [if_pos ⟨h1, h2⟩]

/-- C2 counterexample: a single-candidate table (one 13-column `sortStars`
row) is exactly the case the claim's "the candidate list has exactly one
element" clause covers, yet `final_candidate_catalogue` raises `IndexError`
there (lines 137-138 wrap the `(1,13)` array and `sortStars[j][1]` at
line 147 indexes row 1 of a 1-row array): the lone candidate is not walked to
a match, not accepted, and its reference-frame flux contribution is never
added to the running sum. -/
theorem final_candidate_catalogue_single_crashes :
    ssOne.length = 1 ∧
    final_candidate_catalogue refW ssOne (fun _ => 0) 100 1
      = Except.error PyExc.indexError := by
  decide

/-- Witness for C2's amended theorem: a two-candidate table takes the normal
path, and the theorem's acceptance ceiling applies to the returned state. -/
theorem final_candidate_catalogue_selection_witness :
    ∃ st, final_candidate_catalogue refW ssTwo (fun _ => 0) 100 10
        = Except.ok st ∧
      ∀ row ∈ st.compFile,
        (argsortKeys (ssTwo.map (colQ 2))).length = 1 ∨ colQ 2 row < 10 := by
  obtain ⟨-, -, st, hok, -, -, hceil⟩ :=
    (final_candidate_catalogue_selection refW ssTwo (fun _ => 0) 100 10).1 (by decide)
  exact ⟨st, hok, hceil⟩

/-- Population variance of a two-element list. -/
theorem pyvar_pair (a b : ℝ) : pyvar [a, b] = ((a - b) / 2) ^ 2 := by
  simp [pyvar, pymean]
  ring

/-- Population standard deviation of a two-element list. -/
theorem pystd_pair (a b : ℝ) : pystd [a, b] = |a - b| / 2 := by
  rw [pystd, pyvar_pair, Real.sqrt_sq_eq_abs, abs_div]
  norm_num

/-- Two equal samples have zero standard deviation. -/
theorem pystd_same (a : ℝ) : pystd [a, a] = 0 := by
  rw [pystd_pair]
  simp

/-- A standard deviation is nonnegative. -/
theorem pystd_nonneg (l : List ℝ) : 0 ≤ pystd l := Real.sqrt_nonneg _

/-- The scattering star's column of `calibT4` has standard deviation 1. -/
theorem pystd_calibT4_col0 : pystd [(0 : ℝ), 2, 0, 2] = 1 := by
  have h : pyvar [(0 : ℝ), 2, 0, 2] = 1 := by
    norm_num [pyvar, pymean]
  rw [pystd, h, Real.sqrt_one]

/-- The constant star's column of `calibT4` has standard deviation 0. -/
theorem pystd_calibT4_col1 : pystd [(3 : ℝ), 3, 3, 3] = 0 := by
  have h : pyvar [(3 : ℝ), 3, 3, 3] = 0 := by
    norm_num [pyvar, pymean]
  rw [pystd, h, Real.sqrt_zero]

/-- Per-star scatter of the concrete calibrated table. -/
theorem sumStdOf_calibT4 : sumStdOf calibT4 = [1, 0] := by
  have h : sumStdOf calibT4 = [pystd [(0 : ℝ), 2, 0, 2], pystd [(3 : ℝ), 3, 3, 3]] := rfl
  rw [h, pystd_calibT4_col0, pystd_calibT4_col1]

/-- `numpy.median` of the two-element scatter list. -/
theorem pymedian_calibT4 : pymedian [(1 : ℝ), 0] = 1 / 2 := by
  norm_num [pymedian, sortAsc, insertAsc]

/-- C4 counterexample: on a table of 4 frames × 2 comparison stars the
reported uncertainty `errCalib` (which divides by the square root of the
*star* count, `len(calibCompUsed[0,:])`) differs from the claimed value,
which divides by the square root of the *frame* count. -/
theorem errCalib_frame_count_counterexample :
    errCalibOf calibT4
      ≠ pymedian (sumStdOf calibT4) / Real.sqrt ((calibT4.length : ℝ)) := by
  have hmed : pymedian (sumStdOf calibT4) = 1 / 2 := by
    rw [sumStdOf_calibT4]
    exact pymedian_calibT4
  have hw : (((calibT4.headD []).length : ℕ) : ℝ) = 2 := by
    norm_num [calibT4]
  have hlen : ((calibT4.length : ℕ) : ℝ) = 4 := by
    norm_num [calibT4]
  have h4 : Real.sqrt 4 = 2 := by
    rw [show (4 : ℝ) = 2 ^ 2 by norm_num]
    exact Real.sqrt_sq (by norm_num)
  have h2pos : 0 < Real.sqrt 2 := Real.sqrt_pos.mpr (by norm_num)
  rw [errCalibOf, hmed, hw, hlen, h4]
  intro h
  have hs2 : Real.sqrt 2 = 2 := by
    field_simp [ne_of_gt h2pos] at h
    linarith
  have hsq := Real.sq_sqrt (by norm_num : (0 : ℝ) ≤ 2)
  rw [hs2] at hsq
  norm_num at hsq

/-- C4 (amended): the overall calibration uncertainty written by
`find_comparisons_calibrated` equals the median of the per-star standard
deviations of calibrated magnitude across frames, divided by the square root
of the number of comparison *stars* (the columns of the per-frame table), not
of the number of frames. -/
theorem errCalib_star_count (t : List (List ℝ)) :
    errCalibOf t
      = pymedian ((columnsOf t).map pystd)
          / Real.sqrt (((columnsOf t).length : ℝ)) := by
  simp only [errCalibOf, sumStdOf, columnsOf, List.map_map, List.length_map,
    List.length_range]
  rfl

/-- Python's `x == np.nan` is false whatever `x` is. -/
theorem pyEqNan_false (x : Option ℝ) : pyEqNan x = false := by
  cases x <;> rfl

/-- C3: evaluation of the NaN-aware `calculate_comparison_variation` at an
input whose first candidate has a NaN variability score (negative flux ratio).
The function returns normally with the NaN (`none`) recorded as the
candidate's score: the `if std(compDiffMags) == np.nan: sys.exit()` guard
compares against NaN with `==`, which is false for every float, so the fatal
exit the claim describes never happens. -/
theorem calculate_comparison_variationN_records_nan :
    (calculate_comparison_variationN compsNan (fileCountOf compsNan)).map
      (fun l => l.getD 0 (some 0)) = .ok none := by
  have hfc : fileCountOf compsNan = [1, 3] := by
    norm_num [fileCountOf, compsNan, rowR, colR]
  rw [hfc]
  have h0 : nstd (compDiffMagsN compsNan [1, 3] 0) = none := by
    have he : compDiffMagsN compsNan [1, 3] 0
        = [nlog10mul (-1 / 1), nlog10mul (1 / 3)] := rfl
    rw [he]
    norm_num [nstd, nlog10mul]
  have hrange : (List.range (compsNan.headD []).length) = [0, 1] := rfl
  rw [calculate_comparison_variationN, hrange]
  simp only [List.foldlM_cons, List.foldlM_nil]
  simp [pyEqNan_false, h0]
  rfl

/-- Boolean masking with an all-`True` mask of matching length keeps every
row. -/
theorem applyMask_replicate (rows : List (List ℝ)) :
    applyMask (List.replicate rows.length true) rows = some rows := by
  have h : ∀ rs : List (List ℝ),
      ((rs.zip (List.replicate rs.length true)).filter (fun p => p.2)).map
        (fun p => p.1) = rs := by
    intro rs
    induction rs with
    | nil => rfl
    | cons r rest ih =>
      simpa [List.replicate_succ] using ih
  simp [applyMask, h]

/-- Boolean masking with a mask of the wrong length is numpy's `IndexError`. -/
theorem applyMask_length_ne (mask : List Bool) (rows : List (List ℝ))
    (h : rows.length ≠ mask.length) : applyMask mask rows = none := by
  simp [applyMask, h]

/-- The rejection pass never changes the mask's length. -/
theorem updateRejecter_length (scores : List ℝ) (thr : ℝ) (rej : List Bool) :
    (updateRejecter scores thr rej).length = rej.length := by
  simp [updateRejecter]

/-- A whole iteration never changes the mask's length. -/
theorem iterMask_length (sm : ℝ) (scores : List ℝ) (rej : List Bool) :
    (iterMask sm scores rej).length = rej.length := by
  by_cases h : (0.002 : ℝ) < pymin scores
  · simp [iterMask, h, updateRejecter_length]
  · simp [iterMask, h]

/-- Masking every frame with an all-`True` mask of the common frame width
keeps the table unchanged. -/
theorem applyMaskAll_replicate (n : ℕ) (comps : List (List (List ℝ)))
    (hrect : ∀ fr ∈ comps, fr.length = n) :
    applyMaskAll (List.replicate n true) comps = some comps := by
  induction comps with
  | nil => rfl
  | cons fr rest ih =>
    have h1 : applyMask (List.replicate n true) fr = some fr := by
      rw [← hrect fr (List.mem_cons_self fr rest)]
      exact applyMask_replicate fr
    have ih2 := ih (fun fr2 hfr2 => hrect fr2 (List.mem_cons_of_mem fr hfr2))
    rw [applyMaskAll, h1, ih2]

/-- If the first frame's width does not match the mask, line 100 raises. -/
theorem applyMaskAll_head_ne (mask : List Bool) (fr : List (List ℝ))
    (rest : List (List (List ℝ))) (h : fr.length ≠ mask.length) :
    applyMaskAll mask (fr :: rest) = none := by
  rw [applyMaskAll, applyMask_length_ne mask fr h]

/-- An all-`True` mask differs from the all-`False` initial `oldrejects`. -/
theorem replicate_true_ne_false (n : ℕ) (hn : 0 < n) :
    List.replicate n true ≠ List.replicate n false := by
  cases n with
  | zero => exact absurd hn (lt_irrefl 0)
  | succ k => simp [List.replicate_succ]

/-- One unfolding of the fuel-indexed rejection loop. -/
theorem rejectionLoopAux_step (sm vm : ℝ) (fc : List ℝ) (fuel : ℕ)
    (comps : List (List (List ℝ))) (rej old : List Bool) (iters : ℕ) :
    rejectionLoopAux sm vm fc (fuel + 1) comps rej old iters
      = match applyMaskAll
          (iterMask sm ((calculate_comparison_variation comps fc).1) rej) comps with
        | none => .error .maskMismatch
        | some comps2 =>
          if iterMask sm ((calculate_comparison_variation comps fc).1) rej = old
          then .ok ⟨comps2, (calculate_comparison_variation comps fc).2,
                    pymin ((calculate_comparison_variation comps fc).1) * vm,
                    iters + 1⟩
          else rejectionLoopAux sm vm fc fuel comps2
                 (iterMask sm ((calculate_comparison_variation comps fc).1) rej)
                 (iterMask sm ((calculate_comparison_variation comps fc).1) rej)
                 (iters + 1) := rfl

/-- Core of C7: a first iteration that rejects nothing leaves the all-`True`
mask, which never equals the all-`False` `oldrejects`, so a second — and
final — iteration runs on the unchanged table. -/
theorem rejectionLoop_no_reject_core (sm vm : ℝ) (comps : List (List (List ℝ)))
    (hn : 0 < (comps.headD []).length)
    (hrect : ∀ fr ∈ comps, fr.length = (comps.headD []).length)
    (hmask : iterMask sm ((calculate_comparison_variation comps (fileCountOf comps)).1)
        (List.replicate (comps.headD []).length true)
      = List.replicate (comps.headD []).length true) :
    (find_comparisons_rejection sm vm comps).map RejectState.iterations = .ok 2 := by
  rw [find_comparisons_rejection]
  set n := (comps.headD []).length with hn_def
  have hne := replicate_true_ne_false n hn
  rw [show n + 2 = n + 1 + 1 from rfl]
  rw [rejectionLoopAux_step]
  rw [hmask, applyMaskAll_replicate n comps hrect]
  simp only [hne, if_false]
  rw [rejectionLoopAux_step]
  rw [hmask, applyMaskAll_replicate n comps hrect]
  simp
  rfl

/-- C7 (amended): if on the first iteration of the rejection loop no candidate
is rejected (the keep mask stays all-`True`), the loop does *not* converge
after that iteration — `oldrejects` is initialised all-`False`, so on a
nonempty candidate set the first fixed-point comparison always fails — and it
exits after exactly *two* iterations, the second recomputing the identical
mask on the unchanged table. -/
theorem rejection_no_reject_two_iterations (sm vm : ℝ)
    (comps : List (List (List ℝ)))
    (hn : 0 < (comps.headD []).length)
    (hrect : ∀ fr ∈ comps, fr.length = (comps.headD []).length)
    (hmask : iterMask sm ((calculate_comparison_variation comps (fileCountOf comps)).1)
        (List.replicate (comps.headD []).length true)
      = List.replicate (comps.headD []).length true) :
    (find_comparisons_rejection sm vm comps).map RejectState.iterations = .ok 2 :=
  rejectionLoop_no_reject_core sm vm comps hn hrect hmask

/-- Witness for C7's amended theorem at a concrete 2-frame, 3-candidate input
with identical candidates (all scores 0, so rejection is skipped). -/
theorem rejection_no_reject_two_iterations_witness :
    (find_comparisons_rejection 2.5 2.5 comps3same).map RejectState.iterations
      = .ok 2 := by
  have hfc : fileCountOf comps3same = [6, 6] := by
    norm_num [fileCountOf, comps3same, rowR, colR]
  have h1 : (calculate_comparison_variation comps3same (fileCountOf comps3same)).1
      = [0, 0, 0] := by
    rw [hfc]
    have hs : (calculate_comparison_variation comps3same [6, 6]).1
        = [pystd [2.5 * log10 (2 / 6), 2.5 * log10 (2 / 6)],
           pystd [2.5 * log10 (2 / 6), 2.5 * log10 (2 / 6)],
           pystd [2.5 * log10 (2 / 6), 2.5 * log10 (2 / 6)]] := rfl
    rw [hs, pystd_same]
  apply rejection_no_reject_two_iterations 2.5 2.5 comps3same
  · simp [comps3same]
  · intro fr hfr
    simp [comps3same] at hfr
    subst hfr
    rfl
  · rw [h1]
    rw [iterMask]
    have hmin : pymin [(0 : ℝ), 0, 0] = 0 := by
      simp [pymin]
    rw [if_neg (by rw [hmin]; norm_num)]

/-- C7 counterexample: a concrete 2-frame, 2-candidate input on which the
first iteration rejects nothing (all scores 0, i.e. the rejection mask is
all-false), yet the loop executes exactly two iterations before exiting, not
one: the fixed-point test compares against `oldrejects`, initialised
all-`False`. -/
theorem rejection_first_iteration_counterexample :
    iterMask 2.5 ((calculate_comparison_variation comps2 (fileCountOf comps2)).1)
        (List.replicate 2 true) = List.replicate 2 true
    ∧ (find_comparisons_rejection 2.5 2.5 comps2).map RejectState.iterations = .ok 2
    ∧ (find_comparisons_rejection 2.5 2.5 comps2).map RejectState.iterations
        ≠ .ok 1 := by
  have hfc : fileCountOf comps2 = [2, 2] := by
    norm_num [fileCountOf, comps2, rowR, colR]
  have h1 : (calculate_comparison_variation comps2 (fileCountOf comps2)).1
      = [0, 0] := by
    rw [hfc]
    have hs : (calculate_comparison_variation comps2 [2, 2]).1
        = [pystd [2.5 * log10 (1 / 2), 2.5 * log10 (1 / 2)],
           pystd [2.5 * log10 (1 / 2), 2.5 * log10 (1 / 2)]] := rfl
    rw [hs, pystd_same]
  have hm : iterMask 2.5 ((calculate_comparison_variation comps2 (fileCountOf comps2)).1)
      (List.replicate 2 true) = List.replicate 2 true := by
    rw [h1, iterMask]
    have hmin : pymin [(0 : ℝ), 0] = 0 := by
      simp [pymin]
    rw [if_neg (by rw [hmin]; norm_num)]
  have h2 : (find_comparisons_rejection 2.5 2.5 comps2).map RejectState.iterations
      = .ok 2 := by
    apply rejectionLoop_no_reject_core 2.5 2.5 comps2
    · simp [comps2]
    · intro fr hfr
      simp [comps2] at hfr
      subst hfr
      rfl
    · exact hm
  refine ⟨hm, h2, ?_⟩
  rw [h2]
  simp

/-- `rSmall = 10^(1/50) > 1`. -/
theorem one_lt_rSmall : 1 < rSmall := by
  rw [rSmall]
  exact (Real.one_lt_rpow_iff_of_pos (by norm_num)).mpr
    (Or.inl ⟨by norm_num, by norm_num⟩)

/-- `rBig = 10^(4/5) > 1`. -/
theorem one_lt_rBig : 1 < rBig := by
  rw [rBig]
  exact (Real.one_lt_rpow_iff_of_pos (by norm_num)).mpr
    (Or.inl ⟨by norm_num, by norm_num⟩)

/-- `rSmall > 0`. -/
theorem rSmall_pos : 0 < rSmall := lt_trans zero_lt_one one_lt_rSmall

/-- `rBig > 0`. -/
theorem rBig_pos : 0 < rBig := lt_trans zero_lt_one one_lt_rBig

/-- The balancing flux is positive. -/
theorem wBal_pos : 0 < wBal := by
  rw [wBal]
  have h1 := one_lt_rSmall
  have h2 := one_lt_rBig
  apply div_pos <;> linarith

/-- The balancing identity behind the equal frame totals. -/
theorem wBal_mul : wBal * (rSmall - 1) = rBig - 1 := by
  rw [wBal]
  exact div_mul_cancel₀ _ (sub_ne_zero.mpr (ne_of_gt one_lt_rSmall))

/-- The common flux total is positive. -/
theorem fluxTotal_pos : 0 < fluxTotal := by
  rw [fluxTotal]
  have h1 := rSmall_pos
  have h2 := rBig_pos
  have h3 := wBal_pos
  linarith

/-- `log10 rSmall = 1/50` exactly. -/
theorem logb_rSmall : Real.logb 10 rSmall = 1 / 50 := by
  rw [rSmall]
  exact Real.logb_rpow (by norm_num) (by norm_num)

/-- `log10 rBig = 4/5` exactly. -/
theorem logb_rBig : Real.logb 10 rBig = 4 / 5 := by
  rw [rBig]
  exact Real.logb_rpow (by norm_num) (by norm_num)

/-- Both frames of `comps8` sum to the same ensemble flux total. -/
theorem fileCount_comps8 : fileCountOf comps8 = [fluxTotal, fluxTotal] := by
  have hw := wBal_mul
  simp [fileCountOf, comps8, frameA, frameB, rowR, colR, fluxTotal]
  constructor
  · ring
  · nlinarith [hw]

/-- Variability score of a two-frame candidate with equal ensemble totals:
the `log10` of the per-frame total cancels. -/
theorem score_pair (f0 f1 C : ℝ) (hf0 : 0 < f0) (hf1 : 0 < f1) (hC : 0 < C) :
    pystd [2.5 * log10 (f0 / C), 2.5 * log10 (f1 / C)]
      = 2.5 * |Real.logb 10 f0 - Real.logb 10 f1| / 2 := by
  rw [pystd_pair]
  have h1 : 2.5 * log10 (f0 / C) - 2.5 * log10 (f1 / C)
      = 2.5 * (Real.logb 10 f0 - Real.logb 10 f1) := by
    rw [log10, log10, Real.logb_div (ne_of_gt hf0) (ne_of_gt hC),
      Real.logb_div (ne_of_gt hf1) (ne_of_gt hC)]
    ring
  rw [h1, abs_mul, abs_of_pos (by norm_num : (0 : ℝ) < 2.5)]

/-- Score of a candidate whose flux ratio between the frames is `rSmall`. -/
theorem score_small_a :
    pystd [2.5 * log10 (rSmall / fluxTotal), 2.5 * log10 (1 / fluxTotal)]
      = 1 / 40 := by
  rw [score_pair rSmall 1 fluxTotal rSmall_pos one_pos fluxTotal_pos,
    logb_rSmall, Real.logb_one, sub_zero,
    abs_of_pos (by norm_num : (0 : ℝ) < 1 / 50)]
  norm_num

/-- Score of a candidate whose flux ratio between the frames is `1/rSmall`. -/
theorem score_small_b :
    pystd [2.5 * log10 (1 / fluxTotal), 2.5 * log10 (rSmall / fluxTotal)]
      = 1 / 40 := by
  rw [score_pair 1 rSmall fluxTotal one_pos rSmall_pos fluxTotal_pos,
    logb_rSmall, Real.logb_one, zero_sub, abs_neg,
    abs_of_pos (by norm_num : (0 : ℝ) < 1 / 50)]
  norm_num

/-- Score of the sum-balancing candidate: its ratio is also `1/rSmall`. -/
theorem score_small_w :
    pystd [2.5 * log10 (wBal / fluxTotal), 2.5 * log10 (wBal * rSmall / fluxTotal)]
      = 1 / 40 := by
  rw [score_pair wBal (wBal * rSmall) fluxTotal wBal_pos
    (mul_pos wBal_pos rSmall_pos) fluxTotal_pos]
  rw [Real.logb_mul (ne_of_gt wBal_pos) (ne_of_gt rSmall_pos), logb_rSmall]
  rw [show Real.logb 10 wBal - (Real.logb 10 wBal + 1 / 50) = -(1 / 50) by ring,
    abs_neg, abs_of_pos (by norm_num : (0 : ℝ) < 1 / 50)]
  norm_num

/-- Score of the outlier candidate, flux ratio `rBig`. -/
theorem score_big :
    pystd [2.5 * log10 (rBig / fluxTotal), 2.5 * log10 (1 / fluxTotal)] = 1 := by
  rw [score_pair rBig 1 fluxTotal rBig_pos one_pos fluxTotal_pos,
    logb_rBig, Real.logb_one, sub_zero,
    abs_of_pos (by norm_num : (0 : ℝ) < 4 / 5)]
  norm_num

/-- The first iteration's variability scores on `comps8`. -/
theorem scores_comps8 :
    (calculate_comparison_variation comps8 (fileCountOf comps8)).1
      = [1 / 40, 1 / 40, 1 / 40, 1 / 40, 1 / 40, 1 / 40, 1 / 40, 1] := by
  rw [fileCount_comps8]
  have hstruct : (calculate_comparison_variation comps8 [fluxTotal, fluxTotal]).1
      = [pystd [2.5 * log10 (rSmall / fluxTotal), 2.5 * log10 (1 / fluxTotal)],
         pystd [2.5 * log10 (1 / fluxTotal), 2.5 * log10 (rSmall / fluxTotal)],
         pystd [2.5 * log10 (rSmall / fluxTotal), 2.5 * log10 (1 / fluxTotal)],
         pystd [2.5 * log10 (1 / fluxTotal), 2.5 * log10 (rSmall / fluxTotal)],
         pystd [2.5 * log10 (rSmall / fluxTotal), 2.5 * log10 (1 / fluxTotal)],
         pystd [2.5 * log10 (1 / fluxTotal), 2.5 * log10 (rSmall / fluxTotal)],
         pystd [2.5 * log10 (wBal / fluxTotal), 2.5 * log10 (wBal * rSmall / fluxTotal)],
         pystd [2.5 * log10 (rBig / fluxTotal), 2.5 * log10 (1 / fluxTotal)]] := rfl
  rw [hstruct, score_small_a, score_small_b, score_small_w, score_big]

/-- The rejection pass on the `comps8` scores flips exactly position 7. -/
theorem updateRejecter_comps8 (thr : ℝ)
    (hno : ¬ thr < 1 / 40) (hyes : thr < 1) :
    updateRejecter [1 / 40, 1 / 40, 1 / 40, 1 / 40, 1 / 40, 1 / 40, 1 / 40, (1 : ℝ)]
      thr (List.replicate 8 true)
      = [true, true, true, true, true, true, true, false] := by
  simp only [updateRejecter]
  rw [show (List.replicate 8 true) = [true, true, true, true, true, true, true, true]
    from rfl]
  rw [show List.range ([true, true, true, true, true, true, true, true] : List Bool).length
      = [0, 1, 2, 3, 4, 5, 6, 7] from rfl]
  norm_num [hno, hyes]

/-- The first whole-mask update on `comps8`: candidate 7 is rejected. -/
theorem iterMask_comps8 :
    iterMask 2.5 [1 / 40, 1 / 40, 1 / 40, 1 / 40, 1 / 40, 1 / 40, 1 / 40, (1 : ℝ)]
      (List.replicate 8 true)
      = [true, true, true, true, true, true, true, false] := by
  have hmin : pymin [1 / 40, 1 / 40, 1 / 40, 1 / 40, 1 / 40, 1 / 40, 1 / 40, (1 : ℝ)]
      = 1 / 40 := by
    norm_num [pymin, min_def]
  have hmed : pymedian [1 / 40, 1 / 40, 1 / 40, 1 / 40, 1 / 40, 1 / 40, 1 / 40, (1 : ℝ)]
      = 1 / 40 := by
    norm_num [pymedian, sortAsc, insertAsc]
  have hvar : pyvar [1 / 40, 1 / 40, 1 / 40, 1 / 40, 1 / 40, 1 / 40, 1 / 40, (1 : ℝ)]
      = 10647 / 102400 := by
    norm_num [pyvar, pymean]
  have hstdlt : pystd [1 / 40, 1 / 40, 1 / 40, 1 / 40, 1 / 40, 1 / 40, 1 / 40, (1 : ℝ)]
      < 39 / 100 := by
    rw [pystd, hvar, Real.sqrt_lt' (by norm_num : (0 : ℝ) < 39 / 100)]
    norm_num
  have hstd0 := pystd_nonneg
    [1 / 40, 1 / 40, 1 / 40, 1 / 40, 1 / 40, 1 / 40, 1 / 40, (1 : ℝ)]
  rw [iterMask, if_pos (by rw [hmin]; norm_num), hmed]
  apply updateRejecter_comps8
  · intro hcon
    nlinarith
  · nlinarith

/-- C1: evaluation of the rejection loop at the failing input `comps8`
(2 frames × 8 candidates; candidate 7's flux varies by a factor `10^0.8`
between the frames, the others by `10^±0.02`).  The first iteration rejects
candidate 7, shrinking every frame to 7 columns while `starRejecter` keeps
its initial length 8; the unconditional re-masking on line 100 of the second
iteration then applies an 8-entry boolean mask to 7-column frames, which is
numpy's `IndexError`: the loop crashes instead of reaching a mask fixed
point. -/
theorem find_comparisons_rejection_index_error :
    find_comparisons_rejection 2.5 2.5 comps8 = .error .maskMismatch := by
  rw [find_comparisons_rejection]
  rw [show (comps8.headD []).length = 8 from rfl]
  rw [show (8 : ℕ) + 2 = 9 + 1 from rfl]
  rw [rejectionLoopAux_step, scores_comps8, iterMask_comps8]
  rw [show applyMaskAll [true, true, true, true, true, true, true, false] comps8
      = some [[rowR rSmall, rowR 1, rowR rSmall, rowR 1, rowR rSmall, rowR 1, rowR wBal],
              [rowR 1, rowR rSmall, rowR 1, rowR rSmall, rowR 1, rowR rSmall,
               rowR (wBal * rSmall)]] from rfl]
  have hne1 : ([true, true, true, true, true, true, true, false] : List Bool)
      ≠ List.replicate 8 false := by decide
  simp only [hne1, if_false]
  rw [show (9 : ℕ) = 8 + 1 from rfl]
  rw [rejectionLoopAux_step]
  rw [applyMaskAll_head_ne _ _ _ (by
    rw [iterMask_length]
    decide)]

end Astrosource
